import Mathlib

/-! Recording / upload page controller (`app/static/app.js`)

A shallow embedding of the browser script `app.js`.  The script is event
driven: every function body runs to its first `await` inside one task of the
page's event loop, and the rest of the body runs when the awaited promise is
settled.  The embedding therefore splits every `async` function at its
`await`s and makes the suspended continuations part of the state:

* `startRecording`  = `startRecording` (lines 24-32, up to `getUserMedia`)
                      followed by `startRecordingGranted` (lines 33-106) or
                      `startRecordingRejected` (lines 109-121);
* `recorder.onstop` = `onstop` (lines 44-70, up to `fetch`) followed by
                      `onstopSettled` (lines 72-100);
* `uploadFile`      = `uploadFile` (lines 125-154) followed by
                      `uploadFileSettled` (lines 156-185);
* `stopRecording`   is synchronous (lines 189-197).

Browser objects are modelled by what the script can observe of them: a
`MediaRecorder` by its `state` and by whether the tracks of its stream are
still live, the DOM elements by the properties the script assigns.

Assumptions on the environment:

* the six elements looked up at lines 15-20 exist; the start and stop controls
  call `startRecording` and `stopRecording` when clicked, a disabled control
  dispatches no click, and the file input calls `uploadFile` on change;
* `MediaRecorder.stop()` follows the MediaStream Recording specification: the
  recorder becomes inactive at once, and a queued task fires `dataavailable`
  with the data gathered so far and then `stop`;
* `new MediaRecorder(stream)` and `start()` do not throw, and a recorder stops
  only through `stop()`;
* pending microphone requests and pending network requests settle in any
  order, interleaved with user actions in any way.
-/

namespace App

/-! ## Values -/

/-- A `Blob`: its bytes and its content type. `size` is the number of bytes. -/
structure Blob where
  bytes : List Nat
  type : String
  deriving DecidableEq, Repr

/-- The `size` attribute of a blob. -/
def Blob.size (b : Blob) : Nat := b.bytes.length

/-- Models `new Blob(parts, { type })`: the bytes of the parts, in order. -/
def Blob.ofParts (parts : List Blob) (type : String) : Blob :=
  { bytes := (parts.map Blob.bytes).flatten, type := type }

/-- A `File` of a file input: a blob with a name. -/
structure File where
  name : String
  type : String
  bytes : List Nat
  deriving DecidableEq, Repr

/-- The blob underlying a file. -/
def File.blob (f : File) : Blob := { bytes := f.bytes, type := f.type }

/-- A thrown error object, by the two properties the script reads. -/
structure JSError where
  name : String
  message : String
  deriving DecidableEq, Repr

mutual
/-- A value produced by `response.json()`. A finite number is given by the
text `Number::toString` yields for it; a literal too large for a double
parses to an infinity. The members of an object are listed in property
enumeration order. -/
inductive JSON where
  | null : JSON
  | bool (b : Bool) : JSON
  | num (text : String) : JSON
  | infinity (negative : Bool) : JSON
  | str (s : String) : JSON
  | arr (items : JSONItems) : JSON
  | obj (members : JSONMembers) : JSON
/-- The elements of an array. -/
inductive JSONItems where
  | nil : JSONItems
  | cons (head : JSON) (tail : JSONItems) : JSONItems
/-- The members of an object. -/
inductive JSONMembers where
  | nil : JSONMembers
  | cons (key : String) (value : JSON) (tail : JSONMembers) : JSONMembers
end

/-- Lower-case hexadecimal digit. -/
def hexDigit (n : Nat) : Char :=
  if n < 10 then Char.ofNat (48 + n) else Char.ofNat (87 + n)

/-- The escape of one character inside a JSON string (`QuoteJSONString`). -/
def quoteChar (c : Char) : List Char :=
  if c = '"' then ['\\', '"']
  else if c = '\\' then ['\\', '\\']
  else if c.toNat = 8 then ['\\', 'b']
  else if c.toNat = 9 then ['\\', 't']
  else if c.toNat = 10 then ['\\', 'n']
  else if c.toNat = 12 then ['\\', 'f']
  else if c.toNat = 13 then ['\\', 'r']
  else if c.toNat < 32 then
    ['\\', 'u', '0', '0', hexDigit (c.toNat / 16), hexDigit (c.toNat % 16)]
  else [c]

/-- Models `QuoteJSONString`: the string between double quotes, escaped. -/
def quoteJSONString (s : String) : String :=
  String.mk ('"' :: (s.toList.flatMap quoteChar ++ ['"']))

mutual
/-- Models `JSON.stringify(v, null, gap)` at the current indentation
(`SerializeJSONProperty` with a non-empty gap). -/
def serialize (gap indent : String) : JSON → String
  | JSON.null => "null"
  | JSON.bool true => "true"
  | JSON.bool false => "false"
  | JSON.num text => text
  | JSON.infinity _ => "null"
  | JSON.str s => quoteJSONString s
  | JSON.arr JSONItems.nil => "[]"
  | JSON.arr (JSONItems.cons x xs) =>
      "[\n" ++ (indent ++ gap) ++ serialize gap (indent ++ gap) x
        ++ serializeItems gap (indent ++ gap) xs ++ "\n" ++ indent ++ "]"
  | JSON.obj JSONMembers.nil => "\x7b\x7d"
  | JSON.obj (JSONMembers.cons k v ms) =>
      "\x7b\n" ++ (indent ++ gap) ++ quoteJSONString k ++ ": " ++ serialize gap (indent ++ gap) v
        ++ serializeMembers gap (indent ++ gap) ms ++ "\n" ++ indent ++ "\x7d"
/-- The elements after the first, each behind the separator. -/
def serializeItems (gap indent : String) : JSONItems → String
  | JSONItems.nil => ""
  | JSONItems.cons x xs =>
      ",\n" ++ indent ++ serialize gap indent x ++ serializeItems gap indent xs
/-- The members after the first, each behind the separator. -/
def serializeMembers (gap indent : String) : JSONMembers → String
  | JSONMembers.nil => ""
  | JSONMembers.cons k v ms =>
      ",\n" ++ indent ++ quoteJSONString k ++ ": " ++ serialize gap indent v
        ++ serializeMembers gap indent ms
end

/-- Models `JSON.stringify(v, null, 2)`; `undefined` (an absent property) gives
`undefined`, which a template literal renders as the word. -/
def stringify2 : Option JSON → String
  | none => "undefined"
  | some v => serialize "  " "" v

/-- Own-property lookup in a member list. -/
def JSONMembers.get (key : String) : JSONMembers → Option JSON
  | JSONMembers.nil => none
  | JSONMembers.cons k v ms => if k = key then some v else JSONMembers.get key ms

/-- The `TypeError` of `ToPrimitive` finding no usable conversion (V8
wording). -/
def toPrimitiveError : JSError :=
  { name := "TypeError", message := "Cannot convert object to primitive value" }

/-- Models `ToString` of a plain object (`OrdinaryToPrimitive`, hint string).
A parsed value is never callable, so an own `toString` member hides
`Object.prototype.toString` and leaves only `valueOf`, which yields no
primitive: the conversion throws. Without such a member the inherited
`toString` gives the fixed text. -/
def objectToString (ms : JSONMembers) : Except JSError String :=
  if (ms.get "toString").isSome then Except.error toPrimitiveError
  else Except.ok "[object Object]"

/-- The concatenation of two conversions done one after the other; the first
one that throws decides. -/
def thenAppend (a b : Except JSError String) : Except JSError String :=
  match a with
  | Except.error e => Except.error e
  | Except.ok x =>
      match b with
      | Except.error e => Except.error e
      | Except.ok y => Except.ok (x ++ y)

mutual
/-- Models `ToString` of a parsed value, as applied by a template literal. -/
def toStr : JSON → Except JSError String
  | JSON.null => Except.ok "null"
  | JSON.bool true => Except.ok "true"
  | JSON.bool false => Except.ok "false"
  | JSON.num text => Except.ok text
  | JSON.infinity false => Except.ok "Infinity"
  | JSON.infinity true => Except.ok "-Infinity"
  | JSON.str s => Except.ok s
  | JSON.arr JSONItems.nil => Except.ok ""
  | JSON.arr (JSONItems.cons x xs) => thenAppend (joinElem x) (joinRest xs)
  | JSON.obj ms => objectToString ms
/-- One element inside `Array.prototype.join`: `null` is the empty string,
any other element is converted by `ToString`. -/
def joinElem : JSON → Except JSError String
  | JSON.null => Except.ok ""
  | JSON.bool true => Except.ok "true"
  | JSON.bool false => Except.ok "false"
  | JSON.num text => Except.ok text
  | JSON.infinity false => Except.ok "Infinity"
  | JSON.infinity true => Except.ok "-Infinity"
  | JSON.str s => Except.ok s
  | JSON.arr JSONItems.nil => Except.ok ""
  | JSON.arr (JSONItems.cons x xs) => thenAppend (joinElem x) (joinRest xs)
  | JSON.obj ms => objectToString ms
/-- The elements after the first, each behind a comma. -/
def joinRest : JSONItems → Except JSError String
  | JSONItems.nil => Except.ok ""
  | JSONItems.cons x xs =>
      thenAppend (thenAppend (Except.ok ",") (joinElem x)) (joinRest xs)
end

/-- Template-literal rendering of a property value that may be absent. -/
def interpolate : Option JSON → Except JSError String
  | none => Except.ok "undefined"
  | some v => toStr v

/-! ## The page -/

/-- The `state` attribute of a `MediaRecorder`. -/
inductive RecordingState where
  | inactive
  | recording
  | paused
  deriving DecidableEq, Repr

/-- A `MediaRecorder` together with the stream it was built on: its `state`,
and whether the tracks of the stream are still live (not yet stopped). -/
structure Recorder where
  state : RecordingState
  streamLive : Bool
  deriving DecidableEq, Repr

/-- The content of the output element, by the property that was assigned. -/
inductive Output where
  | text (s : String)
  | html (s : String)
  deriving DecidableEq, Repr

/-- One entry of a `FormData`. -/
inductive FormEntry where
  | file (name : String) (data : Blob) (filename : String)
  | text (name : String) (value : String)
  deriving DecidableEq, Repr

/-- A call of `fetch`. -/
structure Request where
  url : String
  method : String
  body : List FormEntry
  deriving DecidableEq, Repr

/-- The parts of `window.location` the script reads. -/
structure Location where
  protocol : String
  hostname : String
  port : String
  deriving DecidableEq, Repr

/-- The function whose `fetch` is in flight. -/
inductive CallSite where
  | recording
  | upload
  deriving DecidableEq, Repr

/-- How an issued request ends: `fetch` rejects (network failure), or a
response arrives with a status and a body that `response.json()` parses or
rejects. -/
inductive FetchOutcome where
  | rejected (err : JSError)
  | response (status : Nat) (body : Except JSError JSON)

/-- The globals of the script, the properties of the DOM elements it writes,
and the browser-side state its callbacks depend on. -/
structure Page where
  /-- Models `let mediaRecorder`: a reference into `recorders`, or `undefined`. -/
  mediaRecorder : Option Nat
  /-- Models `let audioChunks`. -/
  audioChunks : List Blob
  /-- Models `statusText.textContent`. -/
  statusText : String
  /-- Models `statusText.className`. -/
  statusClass : String
  /-- Models `startBtn.disabled`. -/
  startDisabled : Bool
  /-- Models `stopBtn.disabled`. -/
  stopDisabled : Bool
  /-- Models `jsonOutput`. -/
  jsonOutput : Output
  /-- Models `audioPlayer.style.display`. -/
  audioPlayerDisplay : String
  /-- The blob behind the object URL in `audioPlayer.src`. -/
  audioPlayerSrc : Option Blob
  /-- Models `window.location`. -/
  location : Location
  /-- Every `MediaRecorder` created so far, in creation order. -/
  recorders : List Recorder
  /-- The texts passed to `alert`, oldest first. -/
  alerts : List String
  /-- The messages passed to `console.error`, oldest first. -/
  console : List String
  /-- The calls of `fetch`, oldest first. -/
  requests : List Request
  /-- Calls of `startRecording` suspended at `await getUserMedia`. -/
  pendingMic : Nat
  /-- Recorders on which `stop()` was called and whose queued task (fire
  `dataavailable`, then `stop`) has not run yet. -/
  stopTasks : List Nat
  /-- Calls suspended at `await fetch`, oldest first. -/
  pendingFetch : List CallSite

/-- Modelled from the spec: the page markup (`index.html`) is not part of the
source.  The status is idle, the start control is enabled and the stop control
disabled (§6, "mutually exclusive enablement"), the output area is empty and
the script's globals have their declared initial values (lines 11-12). -/
def initialPage (loc : Location) : Page :=
  { mediaRecorder := none
    audioChunks := []
    statusText := ""
    statusClass := "idle"
    startDisabled := false
    stopDisabled := true
    jsonOutput := Output.text ""
    audioPlayerDisplay := "none"
    audioPlayerSrc := none
    location := loc
    recorders := []
    alerts := []
    console := []
    requests := []
    pendingMic := 0
    stopTasks := []
    pendingFetch := [] }

/-! ## The functions of `app.js` -/

/-- Lines 66-70 and 150-154: the one request both call sites build. -/
def transcribeRequest (loc : Location) (file : FormEntry) : Request :=
  { url := loc.protocol ++ "//" ++ loc.hostname ++ ":" ++ loc.port ++ "/api/transcribe/file"
    method := "POST"
    body := [file, FormEntry.text "language" "en-US"] }

/-- Models `startRecording`, lines 24-32: the part before `await getUserMedia`. -/
def startRecording (s : Page) : Page :=
  { s with
    audioChunks := []
    statusText := "Recording..."
    statusClass := "recording"
    jsonOutput := Output.text ""
    pendingMic := s.pendingMic + 1 }

/-- Models `startRecording`, lines 33-106: `getUserMedia` resolved with a stream. A
recorder is created on the stream, stored in `mediaRecorder` and started. -/
def startRecordingGranted (s : Page) : Page :=
  { s with
    mediaRecorder := some s.recorders.length
    recorders := s.recorders ++ [{ state := RecordingState.recording, streamLive := true }]
    startDisabled := true
    stopDisabled := false }

/-- Lines 114-120: the notification chosen by `err.name`. -/
def microphoneAlert (err : JSError) : String :=
  if err.name = "NotAllowedError" then
    "Microphone access was denied. Please allow microphone access and try again."
  else if err.name = "NotFoundError" then
    "No microphone found. Please check your device."
  else
    "Error accessing microphone: " ++ err.message

/-- Models `startRecording`, lines 109-121: `getUserMedia` rejected with `err`. -/
def startRecordingRejected (err : JSError) (s : Page) : Page :=
  { s with
    console := s.console ++ ["Error starting recording: " ++ err.message]
    statusText := "Error accessing microphone. Please check your device and permissions."
    statusClass := "error"
    alerts := s.alerts ++ [microphoneAlert err] }

/-- Models `mediaRecorder.ondataavailable`, lines 36-40. -/
def ondataavailable (data : Blob) (s : Page) : Page :=
  if data.size > 0 then { s with audioChunks := s.audioChunks ++ [data] } else s

/-- Line 46: every track of the stream recorder `r` was built on is stopped. -/
def releaseStream (r : Nat) (rs : List Recorder) : List Recorder :=
  match rs[r]? with
  | none => rs
  | some rec => rs.set r { rec with streamLive := false }

/-- Models `mediaRecorder.onstop` of recorder `r`, lines 44-70: up to `await fetch`. -/
def onstop (r : Nat) (s : Page) : Page :=
  let blob := Blob.ofParts s.audioChunks "audio/webm"
  { s with
    recorders := releaseStream r s.recorders
    audioPlayerDisplay := "block"
    audioPlayerSrc := some blob
    statusText := "Processing audio..."
    statusClass := "processing"
    requests := s.requests ++
      [transcribeRequest s.location (FormEntry.file "file" blob "recording.webm")]
    pendingFetch := s.pendingFetch ++ [CallSite.recording] }

/-- Lines 91-100 and 176-185: the two `catch` blocks, which are the same. -/
def transcriptionFailed (err : JSError) (s : Page) : Page :=
  { s with
    console := s.console ++ ["Error during transcription: " ++ err.message]
    statusText := "Error occurred during transcription."
    statusClass := "error"
    jsonOutput := Output.text ("Error: " ++ err.message)
    alerts := s.alerts ++
      ["Error occurred while sending the audio for transcription: " ++ err.message] }

/-- Lines 85-88: the markup written by the stop handler. -/
def recordingMarkup (transcription structured : String) : String :=
  "\n          <p><strong>Transcription:</strong> " ++ transcription ++ "</p>\n" ++
  "          <p><strong>Structured Data:</strong> " ++ structured ++ "</p>\n        "

/-- Lines 170-173: the markup written by `uploadFile`. -/
def uploadMarkup (transcription structured : String) : String :=
  "\n      <p><strong>Transcription:</strong> " ++ transcription ++ "</p>\n" ++
  "      <p><strong>Structured Data:</strong> " ++ structured ++ "</p>\n    "

/-- Models `response.ok`: the status is in the range 200-299. -/
def statusOk (status : Nat) : Bool := decide (200 ≤ status) && decide (status ≤ 299)

/-- The error thrown at lines 73 and 157. -/
def httpError (status : Nat) : JSError :=
  { name := "Error", message := "HTTP error! status: " ++ Nat.repr status }

/-- The `TypeError` of reading a property of `null` (V8 wording). -/
def nullReadError : JSError :=
  { name := "TypeError"
    message := "Cannot read properties of null (reading 'transcription')" }

/-- Lines 76-88 and 160-173 once `result` is known: the success status is
written, then the markup. Reading `result.transcription` throws when `result`
is `null`; on any other non-object both properties are `undefined`. The
template literal converts the transcription first, which throws for an object
that cannot be converted; a throw ends in the `catch` block. -/
def showResult (markup : String → String → String) (result : JSON) (s : Page) : Page :=
  let s1 := { s with
    statusText := "Transcription completed successfully!"
    statusClass := "success" }
  match result with
  | JSON.null => transcriptionFailed nullReadError s1
  | JSON.obj ms =>
      match interpolate (ms.get "transcription") with
      | Except.error err => transcriptionFailed err s1
      | Except.ok transcription =>
          let structured := stringify2 (ms.get "structured_data")
          { s1 with jsonOutput := Output.html (markup transcription structured) }
  | _ => { s1 with jsonOutput := Output.html (markup "undefined" "undefined") }

/-- Lines 72-100 and 156-185: the continuation of `await fetch`. The second
suspension (`await response.json()`) is merged into it: nothing is read or
written between the two. -/
def settled (markup : String → String → String) (o : FetchOutcome) (s : Page) : Page :=
  match o with
  | FetchOutcome.rejected err => transcriptionFailed err s
  | FetchOutcome.response status body =>
      if statusOk status then
        match body with
        | Except.error err => transcriptionFailed err s
        | Except.ok result => showResult markup result s
      else transcriptionFailed (httpError status) s

/-- Models `mediaRecorder.onstop`, lines 72-100. -/
def onstopSettled (o : FetchOutcome) (s : Page) : Page := settled recordingMarkup o s

/-- Models `uploadFile`, lines 156-185. -/
def uploadFileSettled (o : FetchOutcome) (s : Page) : Page := settled uploadMarkup o s

/-- Models `file.type.startsWith('audio/')`. -/
def isAudioType (type : String) : Bool := "audio/".toList.isPrefixOf type.toList

/-- Models `uploadFile`, lines 125-154: up to `await fetch`. `files` is
`event.target.files`. -/
def uploadFile (files : List File) (s : Page) : Page :=
  match files.head? with
  | none => { s with alerts := s.alerts ++ ["No file selected. Please choose an audio file."] }
  | some file =>
      if !isAudioType file.type then
        { s with alerts := s.alerts ++ ["Please upload a valid audio file."] }
      else
        { s with
          statusText := "Processing audio..."
          statusClass := "processing"
          jsonOutput := Output.text ""
          requests := s.requests ++
            [transcribeRequest s.location (FormEntry.file "file" file.blob file.name)]
          pendingFetch := s.pendingFetch ++ [CallSite.upload] }

/-- Models `stopRecording`, lines 189-197. `mediaRecorder.stop()` makes the recorder
inactive at once and queues the task that fires `dataavailable` and `stop`. -/
def stopRecording (s : Page) : Page :=
  match s.mediaRecorder with
  | none => s
  | some r =>
      match s.recorders[r]? with
      | none => s
      | some rec =>
          if rec.state ≠ RecordingState.inactive then
            { s with
              recorders := s.recorders.set r { rec with state := RecordingState.inactive }
              stopTasks := s.stopTasks ++ [r]
              statusText := "Stopping recording..."
              statusClass := "processing"
              startDisabled := false
              stopDisabled := true }
          else s

/-- The first `keydown` listener, lines 205-213. The second listener (lines
216-220) only prevents scrolling. -/
def keydown (code : String) (onBody : Bool) (s : Page) : Page :=
  if code = "Space" ∧ s.startDisabled = false ∧ onBody = true then startRecording s
  else if code = "Space" ∧ s.stopDisabled = false ∧ onBody = true then stopRecording s
  else s

/-! ## The event loop -/

/-- What can happen to the page: a user action or a browser callback. -/
inductive Event where
  /-- A click on the start control (ignored by the browser when disabled). -/
  | clickStart
  /-- A click on the stop control (ignored by the browser when disabled). -/
  | clickStop
  /-- A key is pressed; `onBody` says whether the target is the body. -/
  | keydown (code : String) (onBody : Bool)
  /-- The file input changed. -/
  | fileSelected (files : List File)
  /-- A pending `getUserMedia` resolves with a stream. -/
  | micGranted
  /-- A pending `getUserMedia` rejects. -/
  | micRejected (err : JSError)
  /-- Recorder `r`, while recording, delivers a fragment. -/
  | dataAvailable (r : Nat) (data : Blob)
  /-- The task queued by `stop()` on recorder `r` runs: the last fragment is
  delivered, then the stop handler runs. -/
  | recorderStopped (r : Nat) (data : Blob)
  /-- The request at position `i` of the pending ones ends with `o`. -/
  | fetchSettled (i : Nat) (o : FetchOutcome)

/-- One task of the event loop. An event that cannot happen in `s` leaves it
unchanged. -/
def step (s : Page) : Event → Page
  | Event.clickStart => if s.startDisabled then s else startRecording s
  | Event.clickStop => if s.stopDisabled then s else stopRecording s
  | Event.keydown code onBody => keydown code onBody s
  | Event.fileSelected files => uploadFile files s
  | Event.micGranted =>
      if s.pendingMic = 0 then s
      else startRecordingGranted { s with pendingMic := s.pendingMic - 1 }
  | Event.micRejected err =>
      if s.pendingMic = 0 then s
      else startRecordingRejected err { s with pendingMic := s.pendingMic - 1 }
  | Event.dataAvailable r data =>
      match s.recorders[r]? with
      | some rec => if rec.state = RecordingState.recording then ondataavailable data s else s
      | none => s
  | Event.recorderStopped r data =>
      if r ∈ s.stopTasks then
        onstop r (ondataavailable data { s with stopTasks := s.stopTasks.erase r })
      else s
  | Event.fetchSettled i o =>
      match s.pendingFetch[i]? with
      | none => s
      | some CallSite.recording =>
          onstopSettled o { s with pendingFetch := s.pendingFetch.eraseIdx i }
      | some CallSite.upload =>
          uploadFileSettled o { s with pendingFetch := s.pendingFetch.eraseIdx i }

/-- The page after a sequence of events. -/
def run (s : Page) (es : List Event) : Page := es.foldl step s

/-- The states the page can be in. -/
inductive Reachable : Page → Prop where
  | init (loc : Location) : Reachable (initialPage loc)
  | step {s : Page} (e : Event) : Reachable s → Reachable (step s e)

/-- The number of recording sessions: recorders that are not inactive and
whose stream has not been released. -/
def activeSessions (s : Page) : Nat :=
  (s.recorders.filter
    (fun rec => decide (rec.state ≠ RecordingState.inactive) && rec.streamLive)).length

/-- The response `{transcription: "hello", structured_data: {a: 1}}` with
status 200. -/
def helloResponse : FetchOutcome :=
  FetchOutcome.response 200 (Except.ok (JSON.obj
    (JSONMembers.cons "transcription" (JSON.str "hello")
      (JSONMembers.cons "structured_data"
        (JSON.obj (JSONMembers.cons "a" (JSON.num "1") JSONMembers.nil))
        JSONMembers.nil))))

/-- The relation between the recorder in `mediaRecorder`, the status and the
two controls that every step of the page keeps. -/
def ControlInv (s : Page) : Prop :=
  (∀ r rec, s.mediaRecorder = some r → s.recorders[r]? = some rec →
    rec.state ≠ RecordingState.inactive →
    s.startDisabled = true ∧ s.stopDisabled = false) ∧
  (s.statusClass = "recording" → s.pendingMic = 0 → s.startDisabled = true)

/-! ## Upload validation -/

/-- C1: when the first selected file is absent, or its declared type does not
start with "audio/", `uploadFile` issues no request and suspends nowhere,
leaves status text, status class and output area as they were, and shows
exactly one notification; nothing else of the page changes either. -/
theorem uploadFile_rejects_invalid (files : List File) (s : Page)
    (h : files.head? = none ∨
      ∃ f, files.head? = some f ∧ ¬ ("audio/".toList <+: f.type.toList)) :
    (uploadFile files s).requests = s.requests ∧
    (uploadFile files s).pendingFetch = s.pendingFetch ∧
    (uploadFile files s).statusText = s.statusText ∧
    (uploadFile files s).statusClass = s.statusClass ∧
    (uploadFile files s).jsonOutput = s.jsonOutput ∧
    ∃ msg, (uploadFile files s).alerts = s.alerts ++ [msg] ∧
      uploadFile files s = { s with alerts := s.alerts ++ [msg] } := by
  rcases h with h | ⟨f, hf, hty⟩
  · simp [uploadFile, h]
  · have hb : isAudioType f.type = false := by
      cases hc : isAudioType f.type
      · rfl
      · exact absurd (List.isPrefixOf_iff_prefix.mp hc) hty
    simp [uploadFile, hf, hb]

/-- C1 at a text file selected on the initial page. -/
theorem uploadFile_rejects_invalid_witness :
    (uploadFile [⟨"notes.txt", "text/plain", [104, 105]⟩]
        (initialPage ⟨"http:", "localhost", "8000"⟩)).requests = [] ∧
    (uploadFile [⟨"notes.txt", "text/plain", [104, 105]⟩]
        (initialPage ⟨"http:", "localhost", "8000"⟩)).alerts =
      ["Please upload a valid audio file."] := by
  have h := uploadFile_rejects_invalid [⟨"notes.txt", "text/plain", [104, 105]⟩]
    (initialPage ⟨"http:", "localhost", "8000"⟩)
    (Or.inr ⟨⟨"notes.txt", "text/plain", [104, 105]⟩, rfl, by decide⟩)
  exact ⟨h.1, by decide⟩

/-! ## Stopping -/

/-- A stop while `mediaRecorder` refers to an inactive recorder changes
nothing. -/
theorem stopRecording_of_inactive (s : Page) (r : Nat) (rec : Recorder)
    (hm : s.mediaRecorder = some r) (hr : s.recorders[r]? = some rec)
    (hs : rec.state = RecordingState.inactive) : stopRecording s = s := by
  simp [stopRecording, hm, hr, hs]

/-- C4: with no active session (`mediaRecorder` undefined, or referring to an
inactive recorder) `stopRecording` returns the page unchanged: status, both
controls, output area, chunk list, request log and queued tasks included. -/
theorem stopRecording_noop (s : Page)
    (h : s.mediaRecorder = none ∨
      ∃ r rec, s.mediaRecorder = some r ∧ s.recorders[r]? = some rec ∧
        rec.state = RecordingState.inactive) :
    stopRecording s = s := by
  rcases h with h | ⟨r, rec, hm, hr, hs⟩
  · simp [stopRecording, h]
  · exact stopRecording_of_inactive s r rec hm hr hs

/-- C4 on the initial page, and on a page whose recorder has been stopped. -/
theorem stopRecording_noop_witness :
    stopRecording (initialPage ⟨"http:", "localhost", "8000"⟩) =
      initialPage ⟨"http:", "localhost", "8000"⟩ ∧
    stopRecording (run (initialPage ⟨"http:", "localhost", "8000"⟩)
        [Event.clickStart, Event.micGranted, Event.clickStop]) =
      run (initialPage ⟨"http:", "localhost", "8000"⟩)
        [Event.clickStart, Event.micGranted, Event.clickStop] :=
  ⟨stopRecording_noop _ (Or.inl rfl),
   stopRecording_noop _ (Or.inr ⟨0, ⟨RecordingState.inactive, true⟩, rfl, rfl, rfl⟩)⟩

/-- After a stop on an active recorder the recorder is inactive. -/
theorem stopRecording_inactive (s : Page) (r : Nat) (rec : Recorder)
    (hm : s.mediaRecorder = some r) (hr : s.recorders[r]? = some rec)
    (ha : rec.state ≠ RecordingState.inactive) :
    (stopRecording s).mediaRecorder = some r ∧
    (stopRecording s).recorders[r]? = some { rec with state := RecordingState.inactive } := by
  have hlt : r < s.recorders.length := by
    by_contra hge
    rw [List.getElem?_eq_none (Nat.le_of_not_lt hge)] at hr
    cases hr
  simp [stopRecording, hm, hr, ha, hlt]

/-- C5: on an active session, `n ≥ 1` calls of `stopRecording` in succession
leave the page exactly as one call does. The calls queue one stop task for the
recorder and issue no request themselves; when that task runs, the stop
handler issues one request, and if no task for the recorder was queued before,
none is left, so the handler cannot run a second time. -/
theorem stopRecording_repeated (s : Page) (r : Nat) (rec : Recorder) (n : Nat)
    (hm : s.mediaRecorder = some r) (hr : s.recorders[r]? = some rec)
    (ha : rec.state ≠ RecordingState.inactive) (hn : 1 ≤ n) :
    (stopRecording^[n]) s = stopRecording s ∧
    ((stopRecording^[n]) s).stopTasks = s.stopTasks ++ [r] ∧
    ((stopRecording^[n]) s).requests = s.requests ∧
    ∀ data : Blob,
      (step ((stopRecording^[n]) s) (Event.recorderStopped r data)).requests.length
        = s.requests.length + 1 ∧
      (r ∉ s.stopTasks →
        r ∉ (step ((stopRecording^[n]) s) (Event.recorderStopped r data)).stopTasks) := by
  have hin := stopRecording_inactive s r rec hm hr ha
  have hfix : stopRecording (stopRecording s) = stopRecording s :=
    stopRecording_of_inactive _ r _ hin.1 hin.2 rfl
  have hiter : ∀ k, (stopRecording^[k + 1]) s = stopRecording s := by
    intro k
    induction k with
    | zero => rfl
    | succ k ih => rw [Function.iterate_succ_apply', ih, hfix]
  obtain ⟨k, rfl⟩ : ∃ k, n = k + 1 := ⟨n - 1, by omega⟩
  rw [hiter k]
  have htasks : (stopRecording s).stopTasks = s.stopTasks ++ [r] := by
    simp [stopRecording, hm, hr, ha]
  have hreqs : (stopRecording s).requests = s.requests := by
    simp [stopRecording, hm, hr, ha]
  refine ⟨rfl, htasks, hreqs, fun data => ⟨?_, ?_⟩⟩
  · have hmem : r ∈ (stopRecording s).stopTasks := by simp [htasks]
    simp only [step, hmem, if_true]
    simp only [onstop, ondataavailable]
    split <;> simp [hreqs]
  · intro hnot
    have hmem : r ∈ (stopRecording s).stopTasks := by simp [htasks]
    simp only [step, hmem, if_true]
    simp only [onstop, ondataavailable]
    have herase : (s.stopTasks ++ [r]).erase r = s.stopTasks := by
      rw [List.erase_append_right _ hnot]
      simp
    split <;> simp [htasks, herase, hnot]

/-- C5 on the page after start and grant: three stops in a row. -/
theorem stopRecording_repeated_witness :
    (stopRecording^[3]) (run (initialPage ⟨"http:", "localhost", "8000"⟩)
        [Event.clickStart, Event.micGranted]) =
      stopRecording (run (initialPage ⟨"http:", "localhost", "8000"⟩)
        [Event.clickStart, Event.micGranted]) :=
  (stopRecording_repeated (run (initialPage ⟨"http:", "localhost", "8000"⟩)
      [Event.clickStart, Event.micGranted]) 0 ⟨RecordingState.recording, true⟩ 3
    rfl rfl (by decide) (by decide)).1

/-! ## Requests -/

/-- C6: one run of the stop handler appends exactly one request, a POST to
`/api/transcribe/file`, to the request log; so does one call of `uploadFile`
whose first file has a type starting with "audio/". The settling of a request
appends none, whatever its outcome (no retry), and no other event issues a
request. -/
theorem one_request_per_payload (s : Page) :
    (∀ r data, r ∈ s.stopTasks →
      ∃ payload, (step s (Event.recorderStopped r data)).requests = s.requests ++
        [{ url := s.location.protocol ++ "//" ++ s.location.hostname ++ ":" ++
             s.location.port ++ "/api/transcribe/file"
           method := "POST"
           body := [FormEntry.file "file" payload "recording.webm",
                    FormEntry.text "language" "en-US"] }]) ∧
    (∀ files f, files.head? = some f → "audio/".toList <+: f.type.toList →
      (uploadFile files s).requests = s.requests ++
        [{ url := s.location.protocol ++ "//" ++ s.location.hostname ++ ":" ++
             s.location.port ++ "/api/transcribe/file"
           method := "POST"
           body := [FormEntry.file "file" f.blob f.name,
                    FormEntry.text "language" "en-US"] }]) ∧
    (∀ i o, (step s (Event.fetchSettled i o)).requests = s.requests) ∧
    (∀ e, (∀ r data, e ≠ Event.recorderStopped r data) →
      (∀ files, e ≠ Event.fileSelected files) → (step s e).requests = s.requests) := by
  have hsettled : ∀ (m : String → String → String) (o : FetchOutcome) (p : Page),
      (settled m o p).requests = p.requests := by
    intro m o p
    unfold settled
    split
    · rfl
    · split
      · split
        · rfl
        · unfold showResult
          split
          · rfl
          · dsimp only
            split <;> rfl
          · rfl
      · rfl
  have hstop : ∀ p : Page, (stopRecording p).requests = p.requests := by
    intro p
    unfold stopRecording
    split
    · rfl
    · split
      · rfl
      · split <;> rfl
  have hfetch : ∀ i o, (step s (Event.fetchSettled i o)).requests = s.requests := by
    intro i o
    simp only [step]
    split
    · rfl
    · simp [onstopSettled, hsettled]
    · simp [uploadFileSettled, hsettled]
  refine ⟨?_, ?_, hfetch, ?_⟩
  · intro r data hr
    refine ⟨Blob.ofParts (ondataavailable data s).audioChunks "audio/webm", ?_⟩
    simp only [step, hr, if_true]
    simp only [onstop, ondataavailable, transcribeRequest]
    split <;> rfl
  · intro files f hf hty
    have hb : isAudioType f.type = true := List.isPrefixOf_iff_prefix.mpr hty
    simp [uploadFile, hf, hb, transcribeRequest]
  · intro e hns hnf
    cases e with
    | clickStart => simp only [step]; split <;> rfl
    | clickStop => simp only [step]; split <;> simp [hstop]
    | keydown code onBody =>
        simp only [step, keydown]
        split
        · rfl
        · split
          · exact hstop s
          · rfl
    | fileSelected files => exact absurd rfl (hnf files)
    | micGranted => simp only [step]; split <;> rfl
    | micRejected err => simp only [step]; split <;> rfl
    | dataAvailable r data =>
        simp only [step]
        split
        · split
          · unfold ondataavailable
            split <;> rfl
          · rfl
        · rfl
    | recorderStopped r data => exact absurd rfl (hns r data)
    | fetchSettled i o => exact hfetch i o

/-- C6 on a page with one stopped recorder, and at an mp3 upload. -/
theorem one_request_per_payload_witness :
    (step (run (initialPage ⟨"http:", "localhost", "8000"⟩)
        [Event.clickStart, Event.micGranted, Event.clickStop])
      (Event.recorderStopped 0 ⟨[7, 7], "audio/webm"⟩)).requests.length = 1 ∧
    (uploadFile [⟨"talk.mp3", "audio/mpeg", [1, 2, 3]⟩]
        (initialPage ⟨"http:", "localhost", "8000"⟩)).requests.length = 1 := by
  have h := one_request_per_payload (run (initialPage ⟨"http:", "localhost", "8000"⟩)
    [Event.clickStart, Event.micGranted, Event.clickStop])
  have h0 := one_request_per_payload (initialPage ⟨"http:", "localhost", "8000"⟩)
  constructor
  · obtain ⟨payload, hp⟩ := h.1 0 ⟨[7, 7], "audio/webm"⟩ (by decide)
    rw [hp]
    rfl
  · rw [h0.2.1 [⟨"talk.mp3", "audio/mpeg", [1, 2, 3]⟩] ⟨"talk.mp3", "audio/mpeg", [1, 2, 3]⟩
      rfl (by decide)]
    rfl

/-! ## Rendering of the outcome -/

/-- Both markups contain the transcript and the rendering they are given. -/
theorem markup_contains (t d : String) :
    t.toList <:+: (recordingMarkup t d).toList ∧
    d.toList <:+: (recordingMarkup t d).toList ∧
    t.toList <:+: (uploadMarkup t d).toList ∧
    d.toList <:+: (uploadMarkup t d).toList := by
  refine ⟨⟨"\n          <p><strong>Transcription:</strong> ".toList,
      ("</p>\n" ++ "          <p><strong>Structured Data:</strong> " ++ d
        ++ "</p>\n        ").toList, ?_⟩,
    ⟨("\n          <p><strong>Transcription:</strong> " ++ t ++ "</p>\n"
        ++ "          <p><strong>Structured Data:</strong> ").toList,
      "</p>\n        ".toList, ?_⟩,
    ⟨"\n      <p><strong>Transcription:</strong> ".toList,
      ("</p>\n" ++ "      <p><strong>Structured Data:</strong> " ++ d ++ "</p>\n    ").toList, ?_⟩,
    ⟨("\n      <p><strong>Transcription:</strong> " ++ t ++ "</p>\n"
        ++ "      <p><strong>Structured Data:</strong> ").toList,
      "</p>\n    ".toList, ?_⟩⟩ <;>
  simp [recordingMarkup, uploadMarkup, String.toList, List.append_assoc]

/-- C7: for a response with a success status whose body is an object with a
string `transcription` t and a `structured_data` d, the stop handler and
`uploadFile` both set the status to success and assign the output area (so its
previous content is gone) a markup that contains t and the two-space-indented
JSON text of d. For `{transcription: "hello", structured_data: {a: 1}}` the
output contains `hello` and `"a": 1`. -/
theorem success_rendering (s : Page) (status : Nat) (ms : JSONMembers) (t : String) (d : JSON)
    (hok : statusOk status = true)
    (ht : ms.get "transcription" = some (JSON.str t))
    (hd : ms.get "structured_data" = some d) :
    ((onstopSettled (FetchOutcome.response status (Except.ok (JSON.obj ms))) s).statusClass
        = "success" ∧
      (onstopSettled (FetchOutcome.response status (Except.ok (JSON.obj ms))) s).jsonOutput
        = Output.html (recordingMarkup t (stringify2 (some d))) ∧
      t.toList <:+: (recordingMarkup t (stringify2 (some d))).toList ∧
      (stringify2 (some d)).toList <:+: (recordingMarkup t (stringify2 (some d))).toList) ∧
    ((uploadFileSettled (FetchOutcome.response status (Except.ok (JSON.obj ms))) s).statusClass
        = "success" ∧
      (uploadFileSettled (FetchOutcome.response status (Except.ok (JSON.obj ms))) s).jsonOutput
        = Output.html (uploadMarkup t (stringify2 (some d))) ∧
      t.toList <:+: (uploadMarkup t (stringify2 (some d))).toList ∧
      (stringify2 (some d)).toList <:+: (uploadMarkup t (stringify2 (some d))).toList) ∧
    (∃ out, (onstopSettled helloResponse s).jsonOutput = Output.html out ∧
      "hello".toList <:+: out.toList ∧ "\"a\": 1".toList <:+: out.toList) ∧
    (∃ out, (uploadFileSettled helloResponse s).jsonOutput = Output.html out ∧
      "hello".toList <:+: out.toList ∧ "\"a\": 1".toList <:+: out.toList) := by
  have hm := markup_contains t (stringify2 (some d))
  refine ⟨⟨?_, ?_, hm.1, hm.2.1⟩, ⟨?_, ?_, hm.2.2.1, hm.2.2.2⟩, ?_, ?_⟩
  · simp [onstopSettled, settled, hok, showResult, ht, interpolate, toStr]
  · simp [onstopSettled, settled, hok, showResult, ht, hd, interpolate, toStr]
  · simp [uploadFileSettled, settled, hok, showResult, ht, interpolate, toStr]
  · simp [uploadFileSettled, settled, hok, showResult, ht, hd, interpolate, toStr]
  · exact ⟨recordingMarkup "hello" "\x7b\n  \"a\": 1\n\x7d", rfl, (markup_contains _ _).1,
      ⟨("\n          <p><strong>Transcription:</strong> hello</p>\n" ++
          "          <p><strong>Structured Data:</strong> \x7b\n  ").toList,
        "\n\x7d</p>\n        ".toList, rfl⟩⟩
  · exact ⟨uploadMarkup "hello" "\x7b\n  \"a\": 1\n\x7d", rfl, (markup_contains _ _).2.2.1,
      ⟨("\n      <p><strong>Transcription:</strong> hello</p>\n" ++
          "      <p><strong>Structured Data:</strong> \x7b\n  ").toList,
        "\n\x7d</p>\n    ".toList, rfl⟩⟩

/-- C7 at the response `{transcription: "hello", structured_data: {a: 1}}`
arriving on the initial page. -/
theorem success_rendering_witness :
    (uploadFileSettled helloResponse (initialPage ⟨"http:", "localhost", "8000"⟩)).statusClass
      = "success" ∧
    (uploadFileSettled helloResponse (initialPage ⟨"http:", "localhost", "8000"⟩)).jsonOutput
      = Output.html ("\n      <p><strong>Transcription:</strong> hello</p>\n" ++
          "      <p><strong>Structured Data:</strong> \x7b\n  \"a\": 1\n\x7d</p>\n    ") := by
  have h := success_rendering (initialPage ⟨"http:", "localhost", "8000"⟩) 200
    (JSONMembers.cons "transcription" (JSON.str "hello")
      (JSONMembers.cons "structured_data"
        (JSON.obj (JSONMembers.cons "a" (JSON.num "1") JSONMembers.nil)) JSONMembers.nil))
    "hello" (JSON.obj (JSONMembers.cons "a" (JSON.num "1") JSONMembers.nil))
    (by decide) rfl rfl
  exact ⟨h.2.1.1, h.2.1.2.1⟩

/-- C8: when an issued request fails (`fetch` rejects, the status is not a
success status, or the body does not parse) the stop handler and `uploadFile`
both set the status to error with one and the same text, show exactly one
notification, and assign the output area the text "Error: " followed by the
error's message, whatever the area held before. -/
theorem failure_rendering (s : Page) (o : FetchOutcome) (err : JSError)
    (h : o = FetchOutcome.rejected err ∨
      (∃ status body, o = FetchOutcome.response status body ∧ statusOk status = false ∧
        err = httpError status) ∨
      (∃ status, o = FetchOutcome.response status (Except.error err) ∧
        statusOk status = true)) :
    ((onstopSettled o s).statusClass = "error" ∧
      (onstopSettled o s).statusText = "Error occurred during transcription." ∧
      (onstopSettled o s).jsonOutput = Output.text ("Error: " ++ err.message) ∧
      (onstopSettled o s).alerts = s.alerts ++
        ["Error occurred while sending the audio for transcription: " ++ err.message] ∧
      (onstopSettled o s).requests = s.requests) ∧
    ((uploadFileSettled o s).statusClass = "error" ∧
      (uploadFileSettled o s).statusText = "Error occurred during transcription." ∧
      (uploadFileSettled o s).jsonOutput = Output.text ("Error: " ++ err.message) ∧
      (uploadFileSettled o s).alerts = s.alerts ++
        ["Error occurred while sending the audio for transcription: " ++ err.message] ∧
      (uploadFileSettled o s).requests = s.requests) := by
  rcases h with rfl | ⟨status, body, rfl, hno, rfl⟩ | ⟨status, rfl, hok⟩
  · simp [onstopSettled, uploadFileSettled, settled, transcriptionFailed]
  · simp [onstopSettled, uploadFileSettled, settled, transcriptionFailed, hno]
  · simp [onstopSettled, uploadFileSettled, settled, transcriptionFailed, hok]

/-- C8 at an HTTP 500 answer to an upload, arriving while the output area
shows the result of an earlier success. -/
theorem failure_rendering_witness :
    (uploadFileSettled (FetchOutcome.response 500 (Except.ok JSON.null))
      (uploadFileSettled helloResponse (initialPage ⟨"http:", "localhost", "8000"⟩))).jsonOutput
      = Output.text "Error: HTTP error! status: 500" ∧
    (uploadFileSettled (FetchOutcome.response 500 (Except.ok JSON.null))
      (uploadFileSettled helloResponse (initialPage ⟨"http:", "localhost", "8000"⟩))).statusClass
      = "error" := by
  have h := failure_rendering
    (uploadFileSettled helloResponse (initialPage ⟨"http:", "localhost", "8000"⟩))
    (FetchOutcome.response 500 (Except.ok JSON.null)) (httpError 500)
    (Or.inr (Or.inl ⟨500, Except.ok JSON.null, rfl, by decide, rfl⟩))
  exact ⟨h.2.2.2.1, h.2.1⟩

/-! ## Reachable states -/

/-- Running events from the initial page gives a reachable state. -/
theorem reachable_run (loc : Location) (es : List Event) :
    Reachable (run (initialPage loc) es) := by
  have h : ∀ (es : List Event) (s : Page), Reachable s → Reachable (run s es) := by
    intro es
    induction es with
    | nil => intro s hs; exact hs
    | cons e es ih => intro s hs; exact ih (step s e) (Reachable.step e hs)
  exact h es _ (Reachable.init loc)

/-- Releasing a stream does not change the `state` of any recorder. -/
theorem releaseStream_state (r k : Nat) (rs : List Recorder) (rec : Recorder)
    (h : (releaseStream r rs)[k]? = some rec) :
    ∃ rec0, rs[k]? = some rec0 ∧ rec0.state = rec.state := by
  unfold releaseStream at h
  split at h
  · exact ⟨rec, h, rfl⟩
  · rename_i rec1 hr
    by_cases hk : r = k
    · subst hk
      have hlt : r < rs.length := by
        by_contra hge
        rw [List.getElem?_eq_none (Nat.le_of_not_lt hge)] at hr
        cases hr
      rw [List.getElem?_set_self hlt] at h
      cases h
      exact ⟨rec1, hr, rfl⟩
    · rw [List.getElem?_set_ne hk] at h
      exact ⟨rec, h, rfl⟩

/-- The first part of `startRecording` keeps the invariant. -/
theorem controlInv_startRecording (s : Page) (h : ControlInv s) :
    ControlInv (startRecording s) := by
  refine ⟨fun r rec hm hr ha => h.1 r rec hm hr ha, ?_⟩
  intro _ hp
  simp [startRecording] at hp

/-- The function `stopRecording` keeps the invariant. -/
theorem controlInv_stopRecording (s : Page) (h : ControlInv s) :
    ControlInv (stopRecording s) := by
  unfold stopRecording
  split
  · exact h
  · rename_i r hm
    split
    · exact h
    · rename_i rec hr
      split
      · have hlt : r < s.recorders.length := by
          by_contra hge
          rw [List.getElem?_eq_none (Nat.le_of_not_lt hge)] at hr
          cases hr
        refine ⟨?_, ?_⟩
        · intro r1 rec1 hm1 hr1 ha1
          simp only [hm] at hm1
          cases hm1
          simp only [List.getElem?_set_self hlt] at hr1
          cases hr1
          exact absurd rfl ha1
        · intro hc
          simp at hc
      · exact h

/-- The continuation of a `fetch` keeps the invariant. -/
theorem controlInv_settled (m : String → String → String) (o : FetchOutcome) (s : Page)
    (k : List CallSite) (h : ControlInv s) :
    ControlInv (settled m o { s with pendingFetch := k }) := by
  have hfail : ∀ err, ControlInv (transcriptionFailed err { s with pendingFetch := k }) := by
    intro err
    refine ⟨fun r rec hm hr ha => h.1 r rec hm hr ha, ?_⟩
    intro hc
    simp [transcriptionFailed] at hc
  unfold settled
  split
  · exact hfail _
  · split
    · split
      · exact hfail _
      · unfold showResult
        split
        · refine ⟨fun r rec hm hr ha => h.1 r rec hm hr ha, ?_⟩
          intro hc
          simp [transcriptionFailed] at hc
        · dsimp only
          split
          · refine ⟨fun r rec hm hr ha => h.1 r rec hm hr ha, ?_⟩
            intro hc
            simp [transcriptionFailed] at hc
          · refine ⟨fun r rec hm hr ha => h.1 r rec hm hr ha, ?_⟩
            intro hc
            simp at hc
        · refine ⟨fun r rec hm hr ha => h.1 r rec hm hr ha, ?_⟩
          intro hc
          simp at hc
    · exact hfail _

/-- Every event keeps the invariant. -/
theorem controlInv_step (s : Page) (e : Event) (h : ControlInv s) : ControlInv (step s e) := by
  cases e with
  | clickStart =>
      simp only [step]
      split
      · exact h
      · exact controlInv_startRecording s h
  | clickStop =>
      simp only [step]
      split
      · exact h
      · exact controlInv_stopRecording s h
  | keydown code onBody =>
      simp only [step, keydown]
      split
      · exact controlInv_startRecording s h
      · split
        · exact controlInv_stopRecording s h
        · exact h
  | fileSelected files =>
      simp only [step, uploadFile]
      split
      · exact ⟨fun r rec hm hr ha => h.1 r rec hm hr ha, h.2⟩
      · split
        · exact ⟨fun r rec hm hr ha => h.1 r rec hm hr ha, h.2⟩
        · refine ⟨fun r rec hm hr ha => h.1 r rec hm hr ha, ?_⟩
          intro hc
          simp at hc
  | micGranted =>
      simp only [step]
      split
      · exact h
      · exact ⟨fun _ _ _ _ _ => ⟨rfl, rfl⟩, fun _ _ => rfl⟩
  | micRejected err =>
      simp only [step]
      split
      · exact h
      · refine ⟨fun r rec hm hr ha => h.1 r rec hm hr ha, ?_⟩
        intro hc
        simp [startRecordingRejected] at hc
  | dataAvailable r data =>
      simp only [step]
      split
      · split
        · unfold ondataavailable
          split
          · exact ⟨fun r rec hm hr ha => h.1 r rec hm hr ha, h.2⟩
          · exact h
        · exact h
      · exact h
  | recorderStopped r data =>
      simp only [step]
      split
      · refine ⟨?_, ?_⟩
        · intro r1 rec1 hm1 hr1 ha1
          have hm0 : s.mediaRecorder = some r1 := by
            simp only [onstop, ondataavailable] at hm1
            split at hm1 <;> exact hm1
          have hr0 : (releaseStream r s.recorders)[r1]? = some rec1 := by
            simp only [onstop, ondataavailable] at hr1
            split at hr1 <;> exact hr1
          obtain ⟨rec0, hrec0, hst⟩ := releaseStream_state r r1 s.recorders rec1 hr0
          have h1 := h.1 r1 rec0 hm0 hrec0 (by rw [hst]; exact ha1)
          simp only [onstop, ondataavailable]
          split <;> exact h1
        · intro hc
          simp [onstop] at hc
      · exact h
  | fetchSettled i o =>
      simp only [step]
      split
      · exact h
      · exact controlInv_settled _ o s _ h
      · exact controlInv_settled _ o s _ h

/-- The invariant holds in every reachable state. -/
theorem controlInv_reachable (s : Page) (h : Reachable s) : ControlInv s := by
  induction h with
  | init loc =>
      refine ⟨?_, ?_⟩
      · intro r rec hm
        simp [initialPage] at hm
      · intro hc
        simp [initialPage] at hc
  | step e _ ih => exact controlInv_step _ e ih

/-! ## The start control -/

/-- C2, as stated, fails: after start, grant and stop the page is reachable,
its status is processing and the start control is enabled, so a click on it
calls `startRecording` (a new microphone request is pending). Likewise, right
after a click on start the status is recording and the start control is still
enabled. -/
theorem start_enabled_while_processing :
    ((step (initialPage ⟨"http:", "localhost", "8000"⟩) Event.clickStart).statusClass
        = "recording" ∧
      (step (initialPage ⟨"http:", "localhost", "8000"⟩) Event.clickStart).startDisabled
        = false) ∧
    Reachable (run (initialPage ⟨"http:", "localhost", "8000"⟩)
      [Event.clickStart, Event.micGranted, Event.clickStop]) ∧
    (run (initialPage ⟨"http:", "localhost", "8000"⟩)
      [Event.clickStart, Event.micGranted, Event.clickStop]).statusClass = "processing" ∧
    (run (initialPage ⟨"http:", "localhost", "8000"⟩)
      [Event.clickStart, Event.micGranted, Event.clickStop]).startDisabled = false ∧
    (step (run (initialPage ⟨"http:", "localhost", "8000"⟩)
      [Event.clickStart, Event.micGranted, Event.clickStop]) Event.clickStart).pendingMic = 1 :=
  ⟨⟨by decide, by decide⟩, reachable_run _ _, by decide, by decide, by decide⟩

/-- C2, amended: in every reachable state, while the recorder held in
`mediaRecorder` is not inactive the start control is disabled and the stop
control enabled, so neither a click on the start control nor a key press calls
`startRecording`; a `stopRecording` in such a state sets the status to
processing and enables the start control in the same step. And when the status
is recording and no microphone request is pending, the start control is
disabled. -/
theorem start_disabled_while_capturing (s : Page) (h : Reachable s) :
    (∀ r rec, s.mediaRecorder = some r → s.recorders[r]? = some rec →
      rec.state ≠ RecordingState.inactive →
      s.startDisabled = true ∧ s.stopDisabled = false ∧
      step s Event.clickStart = s ∧
      (∀ code onBody, (step s (Event.keydown code onBody)).pendingMic = s.pendingMic) ∧
      (step s Event.clickStop).statusClass = "processing" ∧
      (step s Event.clickStop).startDisabled = false) ∧
    (s.statusClass = "recording" → s.pendingMic = 0 → s.startDisabled = true) := by
  have hinv := controlInv_reachable s h
  refine ⟨?_, hinv.2⟩
  intro r rec hm hr ha
  obtain ⟨hstart, hstop⟩ := hinv.1 r rec hm hr ha
  refine ⟨hstart, hstop, ?_, ?_, ?_, ?_⟩
  rotate_left 2
  · simp [step, hstop, stopRecording, hm, hr, ha]
  · simp [step, hstop, stopRecording, hm, hr, ha]
  · simp [step, hstart]
  · intro code onBody
    simp only [step, keydown, hstart]
    split
    · rename_i hc
      simp at hc
    · split
      · simp [stopRecording, hm, hr, ha]
      · rfl

/-- C2, amended, on the page after start and grant. -/
theorem start_disabled_while_capturing_witness :
    Reachable (run (initialPage ⟨"http:", "localhost", "8000"⟩)
      [Event.clickStart, Event.micGranted]) ∧
    (run (initialPage ⟨"http:", "localhost", "8000"⟩)
      [Event.clickStart, Event.micGranted]).startDisabled = true ∧
    step (run (initialPage ⟨"http:", "localhost", "8000"⟩)
      [Event.clickStart, Event.micGranted]) Event.clickStart =
      run (initialPage ⟨"http:", "localhost", "8000"⟩) [Event.clickStart, Event.micGranted] := by
  have h := (start_disabled_while_capturing
    (run (initialPage ⟨"http:", "localhost", "8000"⟩) [Event.clickStart, Event.micGranted])
    (reachable_run _ _)).1 0 ⟨RecordingState.recording, true⟩ rfl rfl (by decide)
  exact ⟨reachable_run _ _, h.1, h.2.2.1⟩

/-! ## Concurrent sessions -/

/-- C3 fails on the code: two starts before the first microphone request
resolves, then both requests granted, give a reachable page with two recorders
that are recording on live streams; `mediaRecorder` holds the second, so the
first can no longer be stopped. -/
theorem double_start_two_sessions (loc : Location) :
    Reachable (run (initialPage loc)
      [Event.clickStart, Event.clickStart, Event.micGranted, Event.micGranted]) ∧
    activeSessions (run (initialPage loc)
      [Event.clickStart, Event.clickStart, Event.micGranted, Event.micGranted]) = 2 ∧
    (run (initialPage loc)
      [Event.clickStart, Event.clickStart, Event.micGranted, Event.micGranted]).mediaRecorder
      = some 1 ∧
    (run (initialPage loc)
      [Event.clickStart, Event.clickStart, Event.micGranted, Event.micGranted,
        Event.clickStop, Event.recorderStopped 1 ⟨[], "audio/webm"⟩]).recorders
      = [⟨RecordingState.recording, true⟩, ⟨RecordingState.inactive, false⟩] :=
  ⟨reachable_run _ _, rfl, rfl, rfl⟩

/-! ## The payload of a session -/

/-- C9 fails on the code: the chunk list is one global, emptied only at the
beginning of `startRecording`. When start is pressed between a stop and the
run of the stop handler, the last fragment of the first session arrives after
the list was emptied and is sent again with the second session; and fragments
delivered before the stop are dropped from the first payload. -/
theorem restart_mixes_sessions :
    (run (initialPage ⟨"http:", "localhost", "8000"⟩)
      [Event.clickStart, Event.micGranted, Event.clickStop, Event.clickStart,
        Event.recorderStopped 0 ⟨[1], "audio/webm"⟩, Event.micGranted, Event.clickStop,
        Event.recorderStopped 1 ⟨[2], "audio/webm"⟩]).requests.map Request.body =
      [[FormEntry.file "file" ⟨[1], "audio/webm"⟩ "recording.webm",
          FormEntry.text "language" "en-US"],
       [FormEntry.file "file" ⟨[1, 2], "audio/webm"⟩ "recording.webm",
          FormEntry.text "language" "en-US"]] ∧
    (run (initialPage ⟨"http:", "localhost", "8000"⟩)
      [Event.clickStart, Event.micGranted, Event.dataAvailable 0 ⟨[1], "audio/webm"⟩,
        Event.clickStop, Event.clickStart,
        Event.recorderStopped 0 ⟨[2], "audio/webm"⟩]).requests.map Request.body =
      [[FormEntry.file "file" ⟨[2], "audio/webm"⟩ "recording.webm",
          FormEntry.text "language" "en-US"]] :=
  ⟨by decide, by decide⟩

/-! ## Microphone failures -/

/-- C10, as stated, fails: one click on start makes the status recording
while the microphone request is pending and no recorder exists; the status
text after a denied permission equals the one after a missing device; and
after two starts, one granted and one rejected, the start control is
disabled. -/
theorem recording_status_before_grant :
    ((step (initialPage ⟨"http:", "localhost", "8000"⟩) Event.clickStart).statusClass
        = "recording" ∧
      (step (initialPage ⟨"http:", "localhost", "8000"⟩) Event.clickStart).pendingMic = 1 ∧
      (step (initialPage ⟨"http:", "localhost", "8000"⟩) Event.clickStart).recorders = []) ∧
    (run (initialPage ⟨"http:", "localhost", "8000"⟩)
        [Event.clickStart, Event.micRejected ⟨"NotAllowedError", "Permission denied"⟩]).statusText
      = (run (initialPage ⟨"http:", "localhost", "8000"⟩)
        [Event.clickStart,
          Event.micRejected ⟨"NotFoundError", "Requested device not found"⟩]).statusText ∧
    (run (initialPage ⟨"http:", "localhost", "8000"⟩)
        [Event.clickStart, Event.clickStart, Event.micGranted,
          Event.micRejected ⟨"NotAllowedError", "Permission denied"⟩]).startDisabled = true :=
  ⟨⟨by decide, by decide, by decide⟩, by decide, by decide⟩

/-- C10, amended: when a pending microphone request fails, the status becomes
error with one text for every kind of failure, and exactly one notification is
shown whose text depends on the kind (denied, no device, other); no recorder
is created, `mediaRecorder` keeps its value, no request is issued and both
controls stay as they were, so the start control is enabled afterwards if it
was enabled before. The status is set to recording by `startRecording` itself,
before the microphone is requested. -/
theorem microphone_failure (s : Page) (err : JSError) (hp : s.pendingMic ≠ 0) :
    (step s (Event.micRejected err)).statusClass = "error" ∧
    (step s (Event.micRejected err)).statusText =
      "Error accessing microphone. Please check your device and permissions." ∧
    (∃ msg, (step s (Event.micRejected err)).alerts = s.alerts ++ [msg] ∧
      (err.name = "NotAllowedError" → msg =
        "Microphone access was denied. Please allow microphone access and try again.") ∧
      (err.name = "NotFoundError" → msg = "No microphone found. Please check your device.") ∧
      (err.name ≠ "NotAllowedError" → err.name ≠ "NotFoundError" →
        msg = "Error accessing microphone: " ++ err.message)) ∧
    (step s (Event.micRejected err)).recorders = s.recorders ∧
    (step s (Event.micRejected err)).mediaRecorder = s.mediaRecorder ∧
    (step s (Event.micRejected err)).requests = s.requests ∧
    (step s (Event.micRejected err)).pendingFetch = s.pendingFetch ∧
    (step s (Event.micRejected err)).stopTasks = s.stopTasks ∧
    (step s (Event.micRejected err)).startDisabled = s.startDisabled ∧
    (step s (Event.micRejected err)).stopDisabled = s.stopDisabled ∧
    (startRecording s).statusClass = "recording" ∧
    (startRecording s).recorders = s.recorders ∧
    (startRecording s).pendingMic = s.pendingMic + 1 := by
  have hstep : step s (Event.micRejected err) =
      startRecordingRejected err { s with pendingMic := s.pendingMic - 1 } := by
    simp [step, hp]
  rw [hstep]
  refine ⟨rfl, rfl, ⟨microphoneAlert err, rfl, ?_, ?_, ?_⟩, rfl, rfl, rfl, rfl, rfl, rfl, rfl,
    rfl, rfl, rfl⟩
  · intro hn
    simp [microphoneAlert, hn]
  · intro hn
    simp [microphoneAlert, hn]
  · intro h1 h2
    simp [microphoneAlert, h1, h2]

/-- C10, amended, at a denied permission after one click on start. -/
theorem microphone_failure_witness :
    (run (initialPage ⟨"http:", "localhost", "8000"⟩)
        [Event.clickStart, Event.micRejected ⟨"NotAllowedError", "Permission denied"⟩]).statusClass
      = "error" ∧
    (run (initialPage ⟨"http:", "localhost", "8000"⟩)
        [Event.clickStart,
          Event.micRejected ⟨"NotAllowedError", "Permission denied"⟩]).startDisabled
      = false := by
  have h := microphone_failure (step (initialPage ⟨"http:", "localhost", "8000"⟩) Event.clickStart)
    ⟨"NotAllowedError", "Permission denied"⟩ (by decide)
  exact ⟨h.1, h.2.2.2.2.2.2.2.2.1⟩

end App
